import Mathlib

/-!
Shallow embedding of the `mcp_ssh` repository (src/mcp_ssh/{security,background,ssh,server}.py).

Python strings are modelled as Lean `String`/`List Char`; the process registry
(a Python `dict` preserving insertion order) as an association list; remote SSH
effects (command execution on the target host) as an explicit environment record
plus an explicit trace of the remote commands a call issues.
-/

set_option autoImplicit false

namespace McpSsh

/-! ### Python string primitives -/

/-- ASCII whitespace stripped by Python `str.strip()`. -/
def pyWS (c : Char) : Bool :=
  c == ' ' || c == '\t' || c == '\n' || c == '\r' || c == '\x0b' || c == '\x0c'

/-- Python `str.strip()` on a character list. -/
def pyStrip (s : List Char) : List Char :=
  ((s.dropWhile pyWS).reverse.dropWhile pyWS).reverse

/-- Python `str.strip()` on a `String`. -/
def pyStripStr (s : String) : String :=
  String.mk (pyStrip s.data)

/-- Python `str.isdigit()` (ASCII fragment): non-empty and all digits. -/
def pyIsDigit (s : List Char) : Bool :=
  !s.isEmpty && s.all Char.isDigit

/-- Value of a digit string (used for Python `int(...)` on an `isdigit()` string). -/
def digitsToNat (s : List Char) : Nat :=
  s.foldl (fun a c => a * 10 + (c.toNat - 48)) 0

/-- Python `int(s)`: optional sign around a digit string, whitespace tolerated
(the underscore digit-separator corner of CPython is not modelled). -/
def pyParseInt (s : String) : Option Int :=
  match pyStrip s.data with
  | '-' :: ds => if pyIsDigit ds then some (-(digitsToNat ds : Int)) else none
  | '+' :: ds => if pyIsDigit ds then some ((digitsToNat ds : Int)) else none
  | ds => if pyIsDigit ds then some ((digitsToNat ds : Int)) else none

/-! ### security.py -/

/-- A compiled regex, modelled by its pattern text together with the behaviour of
`pattern.search` (true iff the pattern matches anywhere within the argument). -/
structure RePattern where
  pattern : String
  search : String → Bool

/-- `CommandValidator` state, built once from the environment
(`security_mode`, compiled blacklist and whitelist patterns). -/
structure CommandValidator where
  security_mode : String
  blacklist_patterns : List RePattern
  whitelist_patterns : List RePattern

/-- The scan loop of `CommandValidator._validate_whitelist`: first matching
pattern allows, otherwise the command is not in the whitelist.
(The `host`/`user` arguments of the Python method are only logged and are dropped.) -/
def whitelistScan (patterns : List RePattern) (command : String) : Bool × String :=
  match patterns with
  | [] => (false, "Command not found in whitelist patterns")
  | p :: rest =>
    if p.search command then
      (true, "Command matches whitelist pattern: " ++ p.pattern)
    else
      whitelistScan rest command

/-- `CommandValidator._validate_whitelist`. -/
def validate_whitelist (patterns : List RePattern) (command : String) : Bool × String :=
  if patterns.isEmpty then
    (false, "No whitelist patterns configured - all commands blocked")
  else
    whitelistScan patterns command

/-- `CommandValidator._validate_blacklist`: first matching pattern blocks,
otherwise the command passes. -/
def validate_blacklist (patterns : List RePattern) (command : String) : Bool × String :=
  match patterns with
  | [] => (true, "Command passed security validation")
  | p :: rest =>
    if p.search command then
      (false, "Command blocked by security policy: " ++ p.pattern)
    else
      validate_blacklist rest command

/-- `CommandValidator.validate_command`. Returns `(is_allowed, reason)`. -/
def validate_command (v : CommandValidator) (command : String) : Bool × String :=
  if v.security_mode = "disabled" then
    (true, "Security validation disabled")
  else
    let command := pyStripStr command
    if command = "" then
      (false, "Empty command not allowed")
    else if v.security_mode = "whitelist" then
      validate_whitelist v.whitelist_patterns command
    else if v.security_mode = "blacklist" then
      validate_blacklist v.blacklist_patterns command
    else
      (false, "Unknown security mode: " ++ v.security_mode)

/-! ### background.py -/

/-- `BackgroundProcess` dataclass. `start_time` (a `datetime`) is modelled as a
`Nat` tick; `pid` and `exit_code` are optional integers as in the source. -/
structure BackgroundProcess where
  process_id : String
  host : String
  command : String
  pid : Option Int
  start_time : Nat
  status : String
  output_file : String
  error_file : String
  exit_code : Option Int
deriving Repr, DecidableEq

/-- The process registry: `BackgroundProcessManager.processes`, a Python dict
modelled as an insertion-ordered association list with unique keys. -/
abbrev Registry : Type := List (String × BackgroundProcess)

/-- Python `dict.get(k)`: the value stored under `k`, if any. -/
def dictGet (r : Registry) (k : String) : Option BackgroundProcess :=
  match r with
  | [] => none
  | (k', v) :: rest => if k' = k then some v else dictGet rest k

/-- Python `k in dict`. -/
def dictMem (r : Registry) (k : String) : Bool :=
  (dictGet r k).isSome

/-- Python `dict[k] = v`: replace in place when the key exists, else append. -/
def dictSet (r : Registry) (k : String) (v : BackgroundProcess) : Registry :=
  match r with
  | [] => [(k, v)]
  | (k', v') :: rest =>
    if k' = k then (k', v) :: rest else (k', v') :: dictSet rest k v

/-- The record built by `BackgroundProcessManager.start_process`.  The uuid-derived
identifier, the formatted timestamp, the clock reading, and the resolved temp
directory are inputs of the model. -/
def newProcess (host command freshId timestamp : String) (now : Nat)
    (tempDir : String) : BackgroundProcess :=
  { process_id := freshId
    host := host
    command := command
    pid := none
    start_time := now
    status := "running"
    output_file := tempDir ++ "/mcp_ssh_" ++ freshId ++ "_" ++ timestamp ++ ".out"
    error_file := tempDir ++ "/mcp_ssh_" ++ freshId ++ "_" ++ timestamp ++ ".err"
    exit_code := none }

/-- `BackgroundProcessManager.start_process`: insert the new record under the
generated identifier (plain dict assignment — no collision check) and return the id. -/
def start_process (r : Registry) (host command freshId timestamp : String)
    (now : Nat) (tempDir : String) : Registry × String :=
  (dictSet r freshId (newProcess host command freshId timestamp now tempDir), freshId)

/-- The field merge performed by `BackgroundProcessManager.update_process` on the
stored record: each argument updates its field only when it is not `None`. -/
def applyUpdate (p : BackgroundProcess) (pid : Option Int) (status : Option String)
    (exit_code : Option Int) : BackgroundProcess :=
  { p with
    pid := match pid with | some v => some v | none => p.pid
    status := match status with | some s => s | none => p.status
    exit_code := match exit_code with | some v => some v | none => p.exit_code }

/-- `BackgroundProcessManager.update_process`. -/
def update_process (r : Registry) (process_id : String) (pid : Option Int)
    (status : Option String) (exit_code : Option Int) : Registry :=
  if dictMem r process_id then
    r.map (fun e => if e.1 = process_id then (e.1, applyUpdate e.2 pid status exit_code) else e)
  else
    r

/-! ### uuid identifiers

`start_process` computes `str(uuid.uuid4())[:8]`.  CPython formats a uuid as 32
lowercase hex digits with dashes after positions 8, 13, 18 and 23, so the first
8 characters render the top 32 bits of the 128-bit value as `%08x`. -/

/-- Lowercase hex digit for a nibble. -/
def hexDigit (n : Nat) : Char :=
  if n < 10 then Char.ofNat (48 + n) else Char.ofNat (87 + n)

/-- Zero-padded lowercase hex rendering of `v`, `width` digits wide. -/
def hexDigits (width : Nat) (v : Nat) : List Char :=
  match width with
  | 0 => []
  | w + 1 => hexDigits w (v / 16) ++ [hexDigit (v % 16)]

/-- `str(uuid.uuid4())[:8]` for the 128-bit value `n`. -/
def uuidFirst8 (n : Nat) : List Char :=
  hexDigits 8 ((n % 2 ^ 128) / 2 ^ 96)

/-- A hexadecimal character as produced by CPython's uuid formatting. -/
def isHexChar (c : Char) : Bool :=
  c.isDigit || ('a' ≤ c && c ≤ 'f')

/-! ### ssh.py — remote effects

Each helper in `ssh.py` issues shell commands on the remote host through
`client.exec_command`.  The remote host is modelled by a `Remote` record
answering liveness probes and file reads, and each embedded function returns,
alongside its result, the ordered trace of remote commands it issued. -/

/-- One remote command issued through `client.exec_command`. -/
inductive RemoteCmd where
  /-- `kill -0 <pid> … && echo 'RUNNING' || echo 'STOPPED'` (liveness probe). -/
  | probe (pid : Int)
  /-- `cat <path> 2>/dev/null || echo ''` (exit-code spool read). -/
  | catFile (path : String)
  /-- `head -c <n> <path> …` (bounded spool read). -/
  | headFile (path : String) (n : Nat)
  /-- `tail -c +<start+1> <path> … | head -c <size>` (byte-ranged spool read). -/
  | tailHead (path : String) (start size : Nat)
  /-- `kill <pid>` (SIGTERM). -/
  | sigterm (pid : Int)
  /-- `kill -9 <pid>` (SIGKILL). -/
  | sigkill (pid : Int)
  /-- `rm -f <out> <err> <out>.exit` (spool cleanup). -/
  | rmFiles (outFile errFile : String)
deriving Repr, DecidableEq

/-- The remote host, as observed by one tool call: liveness of a PID before any
signal, after SIGTERM + 2 s, and after SIGKILL; file contents by path (a missing
file reads as empty, matching the `2>/dev/null || echo ''` fallbacks); and the
text printed by `kill -9` when it fails. -/
structure Remote where
  aliveBefore : Int → Bool
  aliveAfterTerm : Int → Bool
  aliveAfterKill : Int → Bool
  fileBytes : String → List Char
  kill9Msg : Int → String

/-- Python truthiness of `process.pid` (`None` and `0` are falsy). -/
def pidTruthy : Option Int → Bool
  | none => false
  | some v => v != 0

/-- The status computed by `get_process_output`: probe liveness when a truthy
PID is known, otherwise report `completed`. -/
def pollStatus (env : Remote) (p : BackgroundProcess) : String :=
  if pidTruthy p.pid then
    if env.aliveBefore (p.pid.getD 0) then "running" else "completed"
  else
    "completed"

/-- Result of `get_process_output`, plus the trace of remote commands issued. -/
structure PollResult where
  status : String
  output : String
  errors : String
  exit_code : Option Int
  trace : List RemoteCmd
deriving Repr, DecidableEq

/-- `get_process_output(client, process, max_size)`. -/
def get_process_output (env : Remote) (p : BackgroundProcess) (max_size : Nat) :
    PollResult :=
  let probeTrace : List RemoteCmd :=
    if pidTruthy p.pid then [.probe (p.pid.getD 0)] else []
  let status := pollStatus env p
  let exitFile := p.output_file ++ ".exit"
  let exitPart : Option Int × List RemoteCmd :=
    if status = "completed" then
      let exitOutput := pyStrip (env.fileBytes exitFile)
      ((if pyIsDigit exitOutput then some ((digitsToNat exitOutput : Int)) else none),
       [.catFile exitFile])
    else
      (none, [])
  let output := (env.fileBytes p.output_file).take max_size
  let errors := (env.fileBytes p.error_file).take (max_size / 2)
  { status := status
    output := String.mk output
    errors := String.mk errors
    exit_code := exitPart.1
    trace := probeTrace ++ exitPart.2 ++
      [.headFile p.output_file max_size, .headFile p.error_file (max_size / 2)] }

/-- `get_output_chunk(client, process, start_byte, chunk_size)`: the byte range
`[start_byte, start_byte+chunk_size)` of the stdout spool, and the `has_more`
flag `bool(<one probed byte>.strip())`. -/
def get_output_chunk (env : Remote) (p : BackgroundProcess)
    (start_byte chunk_size : Nat) : String × Bool :=
  let content := env.fileBytes p.output_file
  let chunk := (content.drop start_byte).take chunk_size
  let probed := (content.drop (start_byte + chunk_size)).take 1
  (String.mk chunk, !(pyStrip probed).isEmpty)

/-- `kill_background_process(client, process)`: escalate SIGTERM → SIGKILL, with
liveness probes in between; returns `(success, message)` and the trace. -/
def kill_background_process (env : Remote) (p : BackgroundProcess) :
    Bool × String × List RemoteCmd :=
  if pidTruthy p.pid then
    let pid := p.pid.getD 0
    if !env.aliveAfterTerm pid then
      (true, s!"Process {pid} terminated gracefully", [.sigterm pid, .probe pid])
    else if !env.aliveAfterKill pid then
      (true, s!"Process {pid} force killed",
       [.sigterm pid, .probe pid, .sigkill pid, .probe pid])
    else
      (false, s!"Failed to kill process {pid}: " ++ env.kill9Msg pid,
       [.sigterm pid, .probe pid, .sigkill pid, .probe pid])
  else
    (false, "No PID available for process", [])

/-- `cleanup_process_files(client, process)`: remove the three spool files;
in this exception-free model it always reports success. -/
def cleanup_process_files (p : BackgroundProcess) : Bool × List RemoteCmd :=
  (true, [.rmFiles p.output_file p.error_file])

/-! ### ssh.py — heredoc wrapping -/

/-- Python `needle in haystack` (substring containment) on character lists. -/
def isSubstring (d : List Char) : List Char → Bool
  | [] => d.isPrefixOf []
  | c :: rest => d.isPrefixOf (c :: rest) || isSubstring d rest

/-- `"EOF_"` as a character list. -/
def eofPrefix : List Char := ['E', 'O', 'F', '_']

/-- The initial delimiter `"EOF_CMD"`. -/
def eofSeed : List Char := ['E', 'O', 'F', '_', 'C', 'M', 'D']

/-- The delimiter family: `k` copies of `"EOF_"` in front of `"EOF_CMD"`. -/
def eofRep : Nat → List Char
  | 0 => eofSeed
  | k + 1 => eofPrefix ++ eofRep k

theorem isPrefixOf_length_le {l₁ l₂ : List Char} (h : l₁.isPrefixOf l₂ = true) :
    l₁.length ≤ l₂.length := by
  induction l₁ generalizing l₂ with
  | nil => simp
  | cons a as ih =>
    cases l₂ with
    | nil => simp [List.isPrefixOf] at h
    | cons b bs =>
      simp only [List.isPrefixOf, Bool.and_eq_true] at h
      simpa using ih h.2

theorem isSubstring_length_le {d s : List Char} (h : isSubstring d s = true) :
    d.length ≤ s.length := by
  induction s with
  | nil => exact isPrefixOf_length_le (by simpa [isSubstring] using h)
  | cons c rest ih =>
    simp only [isSubstring, Bool.or_eq_true] at h
    rcases h with h | h
    · exact isPrefixOf_length_le h
    · exact (ih h).trans (by simp)

/-- The `while heredoc_delimiter in command` loop of `_prepare_heredoc_command`:
prepend `"EOF_"` until the delimiter no longer occurs in the command. -/
def chooseDelimiter (cmd : List Char) (d : List Char) : List Char :=
  if h : isSubstring d cmd = true then
    chooseDelimiter cmd (eofPrefix ++ d)
  else
    d
termination_by cmd.length + 1 - d.length
decreasing_by
  have := isSubstring_length_le h
  simp only [List.length_append, eofPrefix, List.length_cons, List.length_nil]
  omega

/-- `_prepare_heredoc_command(command)`. -/
def prepare_heredoc_command (command : String) : String :=
  let d := String.mk (chooseDelimiter command.data eofSeed)
  "bash << '" ++ d ++ "'\n" ++ command ++ "\n" ++ d

/-! ### server.py -/

/-- `CommandResult` (pydantic model).  `execution_time` (a float of wall-clock
seconds) is modelled as a `Nat` tick difference. -/
structure CommandResult where
  success : Bool
  process_id : String
  status : String
  stdout : String := ""
  stderr : String := ""
  exit_code : Option Int := none
  execution_time : Nat := 0
  output_size : Nat := 0
  has_more_output : Bool := false
  chunk_start : Nat := 0
  error_message : String := ""
deriving Repr, DecidableEq

/-- `KillProcessResult` (pydantic model). -/
structure KillProcessResult where
  success : Bool
  process_id : String
  message : String := ""
  error_message : String := ""
deriving Repr, DecidableEq

/-- Environment of a single tool call that only reads an existing process:
whether `get_ssh_client_from_config` yields a connection, and the remote host. -/
structure CallEnv where
  conn : Bool
  remote : Remote

/-- Environment of one `execute_command` call: the validator configuration, the
connection outcome, the stripped PID line printed by the background launch
wrapper (`execute_command_background` raises when it is not an integer), the
remote host observed by the post-quick-wait poll, the uuid/timestamp/clock/
tempdir inputs of `start_process`, the elapsed wall-clock ticks, and
`MAX_OUTPUT_SIZE`. -/
structure ExecEnv where
  validator : CommandValidator
  conn : Bool
  pidOutput : String
  remote : Remote
  freshId : String
  timestamp : String
  now : Nat
  tempDir : String
  elapsed : Nat
  maxOutputSize : Nat

/-- `execute_command_background(client, command, output_file, error_file)`:
returns the parsed PID, or the `RuntimeError` message when the printed PID line
is not an integer. -/
def execute_command_background (pidOutput : String) : Except String Int :=
  match pyParseInt pidOutput with
  | some pid => .ok pid
  | none => .error ("Failed to get PID: " ++ pidOutput)

/-- The `execute_command` tool.  Returns the result record and the registry
after the call. -/
def execute_command (env : ExecEnv) (r : Registry) (host command : String) :
    CommandResult × Registry :=
  let validation := validate_command env.validator command
  if !validation.1 then
    ({ success := false, process_id := "", status := "failed",
       error_message := "Security policy violation: " ++ validation.2 }, r)
  else if !env.conn then
    ({ success := false, process_id := "", status := "failed",
       error_message := "Failed to establish SSH connection" }, r)
  else
    let started := start_process r host command env.freshId env.timestamp env.now env.tempDir
    let r1 := started.1
    let process_id := started.2
    let process := newProcess host command env.freshId env.timestamp env.now env.tempDir
    match execute_command_background env.pidOutput with
    | .error msg =>
      -- the RuntimeError propagates to the final `except` clause, which reports
      -- the process_id bound so far and leaves the registry as it is
      ({ success := false, process_id := process_id, status := "failed",
         error_message := msg, execution_time := env.elapsed }, r1)
    | .ok pid =>
      let r2 := update_process r1 process_id (some pid) none none
      -- `process` aliases the stored record, so the poll sees the new pid
      let polled := get_process_output env.remote (applyUpdate process (some pid) none none)
        env.maxOutputSize
      let r3 := update_process r2 process_id none (some polled.status) polled.exit_code
      let output_size := polled.output.length
      ({ success := true, process_id := process_id, status := polled.status,
         stdout := polled.output, stderr := polled.errors,
         exit_code := polled.exit_code, execution_time := env.elapsed,
         output_size := output_size,
         has_more_output := decide (output_size ≥ env.maxOutputSize),
         chunk_start := 0 }, r3)

/-- The `get_command_output` tool.  `chunk_size? = none` falls back to the
configured `CHUNK_SIZE` default. -/
def get_command_output (env : CallEnv) (r : Registry) (process_id : String)
    (start_byte : Nat) (chunkSizeArg : Option Nat) (defaultChunkSize : Nat) :
    CommandResult × Registry :=
  match dictGet r process_id with
  | none =>
    ({ success := false, process_id := process_id, status := "failed",
       error_message := "Process " ++ process_id ++ " not found" }, r)
  | some process =>
    if !env.conn then
      ({ success := false, process_id := process_id, status := "failed",
         error_message := "Failed to establish SSH connection" }, r)
    else
      let chunk_size := chunkSizeArg.getD defaultChunkSize
      let chunked := get_output_chunk env.remote process start_byte chunk_size
      let polled := get_process_output env.remote process 1000
      let r' := update_process r process.process_id none (some polled.status) polled.exit_code
      ({ success := true, process_id := process_id, status := polled.status,
         stdout := chunked.1, stderr := polled.errors, exit_code := polled.exit_code,
         output_size := chunked.1.length, has_more_output := chunked.2,
         chunk_start := start_byte }, r')

/-- The `get_command_status` tool. -/
def get_command_status (env : CallEnv) (r : Registry) (process_id : String)
    (now : Nat) : CommandResult × Registry :=
  match dictGet r process_id with
  | none =>
    ({ success := false, process_id := process_id, status := "failed",
       error_message := "Process " ++ process_id ++ " not found" }, r)
  | some process =>
    if !env.conn then
      ({ success := false, process_id := process_id, status := "failed",
         error_message := "Failed to establish SSH connection" }, r)
    else
      let polled := get_process_output env.remote process 100
      let r' := update_process r process.process_id none (some polled.status) polled.exit_code
      ({ success := true, process_id := process_id, status := polled.status,
         exit_code := polled.exit_code,
         execution_time := now - process.start_time }, r')

/-- The `kill_command` tool.  Returns the result, the registry after the call,
and the trace of remote commands issued. -/
def kill_command (env : CallEnv) (r : Registry) (process_id : String)
    (cleanup_files : Bool) : KillProcessResult × Registry × List RemoteCmd :=
  match dictGet r process_id with
  | none =>
    ({ success := false, process_id := process_id,
       error_message := "Process " ++ process_id ++ " not found" }, r, [])
  | some process =>
    -- "Check current status first": on a non-running record, re-check liveness
    -- and short-circuit only when the probe answers STOPPED
    let preflight : Option (KillProcessResult × Registry) × List RemoteCmd :=
      if process.status ≠ "running" ∧ env.conn = true ∧ pidTruthy process.pid = true then
        let pid := process.pid.getD 0
        if !env.remote.aliveBefore pid then
          -- the registry update mutates the very record object whose `.status`
          -- the f-string then reads, so the reported status is always "completed"
          (some
            ({ success := false, process_id := process_id,
               error_message := "Process " ++ process_id ++
                 " is not running (status: completed)" },
             update_process r process_id none (some "completed") none),
           [.probe pid])
        else
          (none, [.probe pid])
      else
        (none, [])
    match preflight with
    | (some done, tr) => (done.1, done.2, tr)
    | (none, tr) =>
      if !env.conn then
        ({ success := false, process_id := process_id,
           error_message := "Failed to establish SSH connection" }, r, tr)
      else
        match kill_background_process env.remote process with
        | (true, message, ktr) =>
          let r' := update_process r process_id none (some "killed") none
          if cleanup_files then
            let cleaned := cleanup_process_files process
            ({ success := true, process_id := process_id,
               message := message ++ " Files cleaned up." }, r', tr ++ ktr ++ cleaned.2)
          else
            ({ success := true, process_id := process_id, message := message }, r',
             tr ++ ktr)
        | (false, message, ktr) =>
          ({ success := false, process_id := process_id, error_message := message }, r,
           tr ++ ktr)

/-! ### Concrete instances used by witnesses and counterexamples -/

/-- A pattern matching exactly the text `"bad"` (a stand-in for a compiled regex). -/
def patBad : RePattern := { pattern := "bad", search := fun s => s == "bad" }

/-- Blacklist-mode validator whose only deny pattern is `patBad`. -/
def vBlack : CommandValidator :=
  { security_mode := "blacklist", blacklist_patterns := [patBad], whitelist_patterns := [] }

/-- Whitelist-mode validator with an empty allow list. -/
def vWhiteEmpty : CommandValidator :=
  { security_mode := "whitelist", blacklist_patterns := [], whitelist_patterns := [] }

/-- Disabled-mode validator. -/
def vDisabled : CommandValidator :=
  { security_mode := "disabled", blacklist_patterns := [patBad], whitelist_patterns := [] }

/-- A remote host with no live processes and empty files. -/
def remoteQuiet : Remote :=
  { aliveBefore := fun _ => false
    aliveAfterTerm := fun _ => false
    aliveAfterKill := fun _ => false
    fileBytes := fun _ => []
    kill9Msg := fun _ => "" }

/-- A remote host on which the tracked process is alive until SIGTERM lands,
and whose exit spool reads `"0"`. -/
def remoteKillable : Remote :=
  { aliveBefore := fun _ => true
    aliveAfterTerm := fun _ => false
    aliveAfterKill := fun _ => false
    fileBytes := fun _ => ['0']
    kill9Msg := fun _ => "" }

/-- A remote host on which every PID is dead and the exit spool reads `"0"`. -/
def remoteDead : Remote :=
  { aliveBefore := fun _ => false
    aliveAfterTerm := fun _ => false
    aliveAfterKill := fun _ => false
    fileBytes := fun _ => ['0']
    kill9Msg := fun _ => "" }

/-- `execute_command` environment in which validation passes (disabled mode),
the connection succeeds, but the background launch prints garbage instead of a
PID, so `execute_command_background` raises. -/
def envLaunchFail : ExecEnv :=
  { validator := vDisabled
    conn := true
    pidOutput := "garbage"
    remote := remoteQuiet
    freshId := "deadbeef"
    timestamp := "20240101_000000"
    now := 3
    tempDir := "/tmp"
    elapsed := 1
    maxOutputSize := 50000 }

/-- A running tracked process with PID 42. -/
def procRunning : BackgroundProcess :=
  { process_id := "abc12345"
    host := "h1"
    command := "sleep 100"
    pid := some 42
    start_time := 0
    status := "running"
    output_file := "/tmp/o.out"
    error_file := "/tmp/o.err"
    exit_code := none }

/-- Registry holding only `procRunning`. -/
def regRunning : Registry := [("abc12345", procRunning)]

/-- A completed tracked process with PID 7 (for the kill-on-non-running path). -/
def procCompleted : BackgroundProcess :=
  { process_id := "c6", host := "h1", command := "ls", pid := some 7
    start_time := 0, status := "completed", output_file := "/tmp/c.out"
    error_file := "/tmp/c.err", exit_code := some 0 }

/-- Registry holding only `procCompleted`. -/
def regCompleted : Registry := [("c6", procCompleted)]

/-- A completed tracked process with no PID whose stdout spool is `"abcde\nZ"`
(7 bytes; the byte at index 5 is a newline). -/
def procChunk : BackgroundProcess :=
  { process_id := "c5", host := "h1", command := "printf", pid := none
    start_time := 0, status := "completed", output_file := "f.out"
    error_file := "f.err", exit_code := some 0 }

/-- Registry holding only `procChunk`. -/
def regChunk : Registry := [("c5", procChunk)]

/-- Remote host carrying `procChunk`'s spools. -/
def remoteChunk : Remote :=
  { aliveBefore := fun _ => false
    aliveAfterTerm := fun _ => false
    aliveAfterKill := fun _ => false
    fileBytes := fun path =>
      if path = "f.out" then "abcde\nZ".data
      else if path = "f.out.exit" then ['0']
      else []
    kill9Msg := fun _ => "" }

/-- A completed tracked process whose stdout spool holds exactly 100 bytes. -/
def procHundred : BackgroundProcess :=
  { process_id := "c5b", host := "h1", command := "gen", pid := none
    start_time := 0, status := "completed", output_file := "g.out"
    error_file := "g.err", exit_code := some 0 }

/-- Registry holding only `procHundred`. -/
def regHundred : Registry := [("c5b", procHundred)]

/-- Remote host carrying `procHundred`'s 100-byte stdout spool. -/
def remoteHundred : Remote :=
  { aliveBefore := fun _ => false
    aliveAfterTerm := fun _ => false
    aliveAfterKill := fun _ => false
    fileBytes := fun path =>
      if path = "g.out" then List.replicate 100 'a'
      else if path = "g.out.exit" then ['0']
      else []
    kill9Msg := fun _ => "" }

/-- A record created by `start_process` under id `"aaaaaaaa"` (collision target). -/
def procOld : BackgroundProcess := newProcess "h1" "old" "aaaaaaaa" "t0" 0 "/tmp"

/-- Registry already holding the id `"aaaaaaaa"`. -/
def regCollision : Registry := [("aaaaaaaa", procOld)]

/-- Call environment on the kill-capable remote host. -/
def envKill : CallEnv := { conn := true, remote := remoteKillable }

/-- Call environment on the all-dead remote host. -/
def envDead : CallEnv := { conn := true, remote := remoteDead }

/-- Call environment carrying `procChunk`'s spools. -/
def envChunk : CallEnv := { conn := true, remote := remoteChunk }

/-- Call environment carrying `procHundred`'s spools. -/
def envHundred : CallEnv := { conn := true, remote := remoteHundred }

/-- `execute_command` environment whose validator (whitelist mode, empty allow
list) rejects every command. -/
def envPolicyFail : ExecEnv := { envLaunchFail with validator := vWhiteEmpty }

/-- `execute_command` environment in which the SSH connection fails. -/
def envConnFail : ExecEnv := { envLaunchFail with conn := false }

/-! ### Helper lemmas -/

theorem dictGet_some_mem {r : Registry} {k : String} {p : BackgroundProcess}
    (h : dictGet r k = some p) : dictMem r k = true := by
  simp [dictMem, h]

theorem dictMem_false_get {r : Registry} {k : String} (h : dictMem r k = false) :
    dictGet r k = none := by
  cases hd : dictGet r k with
  | none => rfl
  | some p => simp [dictMem, hd] at h

theorem dictGet_dictSet_self (r : Registry) (k : String) (v : BackgroundProcess) :
    dictGet (dictSet r k v) k = some v := by
  induction r with
  | nil => simp [dictSet, dictGet]
  | cons e rest ih =>
    obtain ⟨ek, ev⟩ := e
    by_cases hk : ek = k
    · subst hk
      simp [dictSet, dictGet]
    · simp [dictSet, dictGet, hk, ih]

theorem dictGet_dictSet_other (r : Registry) (k k' : String) (v : BackgroundProcess)
    (h : k' ≠ k) : dictGet (dictSet r k v) k' = dictGet r k' := by
  have h' : k ≠ k' := fun hh => h hh.symm
  induction r with
  | nil => simp [dictSet, dictGet, h']
  | cons e rest ih =>
    obtain ⟨ek, ev⟩ := e
    by_cases hk : ek = k
    · subst hk
      simp [dictSet, dictGet, h']
    · by_cases hk' : ek = k'
      · subst hk'
        simp [dictSet, dictGet, hk, ih]
      · simp [dictSet, dictGet, hk, hk', ih]

theorem dictGet_cons (k' : String) (v : BackgroundProcess) (rest : Registry)
    (k : String) :
    dictGet ((k', v) :: rest) k = if k' = k then some v else dictGet rest k := rfl

theorem dictGet_map_update (r : Registry) (id : String)
    (pidA : Option Int) (stA : Option String) (ecA : Option Int)
    {p : BackgroundProcess} (h : dictGet r id = some p) :
    dictGet (r.map (fun e => if e.1 = id then (e.1, applyUpdate e.2 pidA stA ecA) else e))
      id = some (applyUpdate p pidA stA ecA) := by
  induction r with
  | nil => simp [dictGet] at h
  | cons e rest ih =>
    obtain ⟨ek, ev⟩ := e
    by_cases hk : ek = id
    · subst hk
      rw [dictGet_cons, if_pos rfl] at h
      injection h with h
      subst h
      show dictGet ((if ek = ek then (ek, applyUpdate ev pidA stA ecA) else (ek, ev)) ::
        List.map _ rest) ek = some (applyUpdate ev pidA stA ecA)
      rw [if_pos rfl, dictGet_cons, if_pos rfl]
    · rw [dictGet_cons, if_neg hk] at h
      show dictGet ((if ek = id then (ek, applyUpdate ev pidA stA ecA) else (ek, ev)) ::
        List.map _ rest) id = some (applyUpdate p pidA stA ecA)
      rw [if_neg hk, dictGet_cons, if_neg hk]
      exact ih h

theorem dictGet_map_update_other (r : Registry) (id k : String)
    (pidA : Option Int) (stA : Option String) (ecA : Option Int) (h : k ≠ id) :
    dictGet (r.map (fun e => if e.1 = id then (e.1, applyUpdate e.2 pidA stA ecA) else e))
      k = dictGet r k := by
  induction r with
  | nil => simp [dictGet]
  | cons e rest ih =>
    obtain ⟨ek, ev⟩ := e
    by_cases hid : ek = id
    · subst hid
      have hk : ek ≠ k := fun hh => h hh.symm
      show dictGet ((if ek = ek then (ek, applyUpdate ev pidA stA ecA) else (ek, ev)) ::
        List.map _ rest) k = dictGet ((ek, ev) :: rest) k
      rw [if_pos rfl, dictGet_cons, if_neg hk, dictGet_cons, if_neg hk]
      exact ih
    · show dictGet ((if ek = id then (ek, applyUpdate ev pidA stA ecA) else (ek, ev)) ::
        List.map _ rest) k = dictGet ((ek, ev) :: rest) k
      rw [if_neg hid]
      by_cases hk : ek = k
      · rw [dictGet_cons, if_pos hk, dictGet_cons, if_pos hk]
      · rw [dictGet_cons, if_neg hk, dictGet_cons, if_neg hk]
        exact ih

theorem update_process_absent (r : Registry) (id : String) (pidA : Option Int)
    (stA : Option String) (ecA : Option Int) (h : dictMem r id = false) :
    update_process r id pidA stA ecA = r := by
  simp [update_process, h]

theorem update_process_get_self (r : Registry) (id : String) (pidA : Option Int)
    (stA : Option String) (ecA : Option Int) {p : BackgroundProcess}
    (h : dictGet r id = some p) :
    dictGet (update_process r id pidA stA ecA) id = some (applyUpdate p pidA stA ecA) := by
  simp only [update_process, dictGet_some_mem h, if_pos]
  exact dictGet_map_update r id pidA stA ecA h

theorem update_process_get_other (r : Registry) (id k : String) (pidA : Option Int)
    (stA : Option String) (ecA : Option Int) (h : k ≠ id) :
    dictGet (update_process r id pidA stA ecA) k = dictGet r k := by
  by_cases hm : dictMem r id
  · simp only [update_process, hm, if_pos]
    exact dictGet_map_update_other r id k pidA stA ecA h
  · simp [update_process, hm]

theorem validate_blacklist_false_iff (ps : List RePattern) (c : String) :
    (validate_blacklist ps c).1 = false ↔ ∃ p ∈ ps, p.search c = true := by
  induction ps with
  | nil => simp [validate_blacklist]
  | cons q rest ih =>
    by_cases hq : q.search c
    · simp [validate_blacklist, hq]
    · simp [validate_blacklist, hq, ih]

theorem whitelistScan_true_iff (ps : List RePattern) (c : String) :
    (whitelistScan ps c).1 = true ↔ ∃ p ∈ ps, p.search c = true := by
  induction ps with
  | nil => simp [whitelistScan]
  | cons q rest ih =>
    by_cases hq : q.search c
    · simp [whitelistScan, hq]
    · simp [whitelistScan, hq, ih]

theorem validate_whitelist_true_iff (ps : List RePattern) (c : String) :
    (validate_whitelist ps c).1 = true ↔ ∃ p ∈ ps, p.search c = true := by
  by_cases he : ps.isEmpty
  · rw [List.isEmpty_iff] at he
    subst he
    simp [validate_whitelist]
  · simp [validate_whitelist, he, whitelistScan_true_iff]

theorem hexDigits_length (w v : Nat) : (hexDigits w v).length = w := by
  induction w generalizing v with
  | zero => simp [hexDigits]
  | succ n ih => simp [hexDigits, ih]

theorem hexDigit_isHexChar {m : Nat} (h : m < 16) : isHexChar (hexDigit m) = true := by
  have hball : ∀ m' : Nat, m' < 16 → isHexChar (hexDigit m') = true := by decide
  exact hball m h

theorem hexDigits_all_hex (w v : Nat) : (hexDigits w v).all isHexChar = true := by
  induction w generalizing v with
  | zero => simp [hexDigits]
  | succ n ih =>
    simp only [hexDigits, List.all_append, Bool.and_eq_true]
    exact ⟨ih _, by simpa [List.all] using hexDigit_isHexChar (Nat.mod_lt v (by norm_num))⟩

theorem chooseDelimiter_spec (cmd : List Char) :
    ∀ (n : Nat) (d : List Char), cmd.length + 1 - d.length ≤ n → (∃ k, d = eofRep k) →
      ∃ k, chooseDelimiter cmd d = eofRep k ∧
        isSubstring (chooseDelimiter cmd d) cmd = false := by
  intro n
  induction n with
  | zero =>
    intro d hn hshape
    obtain ⟨k, rfl⟩ := hshape
    have hsub : isSubstring (eofRep k) cmd = false := by
      cases hs : isSubstring (eofRep k) cmd
      · rfl
      · exact absurd (isSubstring_length_le hs) (by omega)
    refine ⟨k, ?_, ?_⟩ <;> rw [chooseDelimiter] <;> simp [hsub]
  | succ n ih =>
    intro d hn hshape
    obtain ⟨k, rfl⟩ := hshape
    cases hs : isSubstring (eofRep k) cmd
    · refine ⟨k, ?_, ?_⟩ <;> rw [chooseDelimiter] <;> simp [hs]
    · have hstep : chooseDelimiter cmd (eofRep k) =
          chooseDelimiter cmd (eofPrefix ++ eofRep k) := by
        rw [chooseDelimiter]
        simp [hs]
      have hlen : (eofRep k).length ≤ cmd.length := isSubstring_length_le hs
      have hmeas : cmd.length + 1 - (eofPrefix ++ eofRep k).length ≤ n := by
        simp only [List.length_append, eofPrefix, List.length_cons, List.length_nil]
        omega
      obtain ⟨k', hk'⟩ := ih (eofPrefix ++ eofRep k) hmeas ⟨k + 1, rfl⟩
      exact ⟨k', by rw [hstep]; exact hk'.1, by rw [hstep]; exact hk'.2⟩

theorem pollStatus_ne_killed (env : Remote) (p : BackgroundProcess) :
    pollStatus env p = "running" ∨ pollStatus env p = "completed" := by
  unfold pollStatus
  by_cases h : pidTruthy p.pid
  · by_cases ha : env.aliveBefore (p.pid.getD 0) <;> simp [h, ha]
  · simp [h]

/-! ### Claim theorems -/

/-- C3: in blacklist mode `validate_command` rejects a non-blank command iff
some deny pattern matches anywhere within it (otherwise it allows); in whitelist
mode it allows iff some allow pattern matches, and an empty allow list rejects
every command. -/
theorem validate_command_mode_semantics (v : CommandValidator) (c : String)
    (h : pyStripStr c ≠ "") :
    (v.security_mode = "blacklist" →
      ((validate_command v c).1 = false ↔
        ∃ p ∈ v.blacklist_patterns, p.search (pyStripStr c) = true)) ∧
    (v.security_mode = "whitelist" →
      ((validate_command v c).1 = true ↔
        ∃ p ∈ v.whitelist_patterns, p.search (pyStripStr c) = true)) ∧
    (v.security_mode = "whitelist" → v.whitelist_patterns = [] →
      (validate_command v c).1 = false) := by
  have hbd : ("blacklist" : String) ≠ "disabled" := by decide
  have hbw : ("blacklist" : String) ≠ "whitelist" := by decide
  have hwd : ("whitelist" : String) ≠ "disabled" := by decide
  refine ⟨?_, ?_, ?_⟩
  · intro hm
    simp [validate_command, hm, hbd, hbw, h, validate_blacklist_false_iff]
  · intro hm
    simp [validate_command, hm, hwd, h, validate_whitelist_true_iff]
  · intro hm he
    simp [validate_command, hm, hwd, h, he, validate_whitelist]

/-- C3 witness: the blacklist-mode semantics evaluated on the validator `vBlack`
and the command `"bad"`. -/
theorem validate_command_mode_semantics_witness :
    pyStripStr "bad" ≠ "" ∧
    ((vBlack.security_mode = "blacklist" →
      ((validate_command vBlack "bad").1 = false ↔
        ∃ p ∈ vBlack.blacklist_patterns, p.search (pyStripStr "bad") = true)) ∧
    (vBlack.security_mode = "whitelist" →
      ((validate_command vBlack "bad").1 = true ↔
        ∃ p ∈ vBlack.whitelist_patterns, p.search (pyStripStr "bad") = true)) ∧
    (vBlack.security_mode = "whitelist" → vBlack.whitelist_patterns = [] →
      (validate_command vBlack "bad").1 = false)) :=
  ⟨by decide, validate_command_mode_semantics vBlack "bad" (by decide)⟩

/-- C4 counterexample: with `security_mode = "disabled"` the empty command is
allowed, because the disabled short-circuit precedes the empty-command check —
so `validate_command` does not reject empty commands in every mode. -/
theorem validate_command_disabled_empty_allowed :
    (validate_command vDisabled "").1 = true := by decide

/-- C4 (amended): in every mode other than `disabled`, a command that is empty
or whitespace-only is rejected; in `disabled` mode validation is skipped
entirely and even the empty command is allowed. -/
theorem validate_command_blank_rejected (v : CommandValidator) (c : String)
    (h : pyStripStr c = "") :
    (v.security_mode ≠ "disabled" → (validate_command v c).1 = false) ∧
    (v.security_mode = "disabled" → (validate_command v c).1 = true) := by
  constructor
  · intro hm
    simp [validate_command, hm, h]
  · intro hm
    simp [validate_command, hm]

/-- C4 witness: the amended behaviour evaluated on `vBlack` (blacklist mode) and
the whitespace-only command. -/
theorem validate_command_blank_rejected_witness :
    pyStripStr "   " = "" ∧
    ((vBlack.security_mode ≠ "disabled" → (validate_command vBlack "   ").1 = false) ∧
     (vBlack.security_mode = "disabled" → (validate_command vBlack "   ").1 = true)) :=
  ⟨by decide, validate_command_blank_rejected vBlack "   " (by decide)⟩

/-- C7: for every command, the heredoc wrapper picks a delimiter of the form
`EOF_ … EOF_CMD` (zero or more `EOF_` prefixes) that does not occur anywhere in
the command, and produces `bash << '<delim>'`, newline, the command, newline,
and the delimiter. -/
theorem prepare_heredoc_command_spec (command : String) :
    ∃ k, chooseDelimiter command.data eofSeed = eofRep k ∧
      isSubstring (eofRep k) command.data = false ∧
      prepare_heredoc_command command =
        "bash << '" ++ String.mk (eofRep k) ++ "'\n" ++ command ++ "\n" ++
          String.mk (eofRep k) := by
  obtain ⟨k, hk, hsub⟩ :=
    chooseDelimiter_spec command.data (command.data.length + 1) eofSeed
      (by omega) ⟨0, rfl⟩
  refine ⟨k, hk, ?_, ?_⟩
  · rw [← hk]
    exact hsub
  · rw [prepare_heredoc_command, hk]

/-- C8 counterexample: `start_process` performs no collision check — starting a
process whose generated identifier is already present silently overwrites the
existing record. -/
theorem start_process_collision_overwrites :
    dictMem regCollision "aaaaaaaa" = true ∧
    (start_process regCollision "h1" "new" "aaaaaaaa" "t1" 1 "/tmp").2 = "aaaaaaaa" ∧
    dictGet (start_process regCollision "h1" "new" "aaaaaaaa" "t1" 1 "/tmp").1 "aaaaaaaa"
      ≠ some procOld := by
  decide

/-- C8 (amended): every identifier produced by the uuid truncation is exactly 8
hexadecimal characters, but insertion is not collision-checked: a `start_process`
whose generated identifier is already present replaces the existing record. -/
theorem start_process_hex_id_and_overwrite :
    (∀ n : Nat, (uuidFirst8 n).length = 8 ∧ (uuidFirst8 n).all isHexChar = true) ∧
    (∀ (r : Registry) (host cmd fid ts : String) (now : Nat) (td : String),
      dictMem r fid = true →
      (start_process r host cmd fid ts now td).2 = fid ∧
      dictGet (start_process r host cmd fid ts now td).1 fid =
        some (newProcess host cmd fid ts now td)) := by
  constructor
  · intro n
    exact ⟨hexDigits_length _ _, hexDigits_all_hex _ _⟩
  · intro r host cmd fid ts now td _hmem
    exact ⟨rfl, dictGet_dictSet_self r fid (newProcess host cmd fid ts now td)⟩

/-- C8 witness: the identifier shape at `n = 5` and the overwrite on
`regCollision`. -/
theorem start_process_hex_id_and_overwrite_witness :
    ((uuidFirst8 5).length = 8 ∧ (uuidFirst8 5).all isHexChar = true) ∧
    ((start_process regCollision "h1" "new" "aaaaaaaa" "t1" 1 "/tmp").2 = "aaaaaaaa" ∧
     dictGet (start_process regCollision "h1" "new" "aaaaaaaa" "t1" 1 "/tmp").1 "aaaaaaaa" =
       some (newProcess "h1" "new" "aaaaaaaa" "t1" 1 "/tmp")) :=
  ⟨start_process_hex_id_and_overwrite.1 5,
   start_process_hex_id_and_overwrite.2 regCollision "h1" "new" "aaaaaaaa" "t1" 1 "/tmp"
     (by decide)⟩

/-- C9: when a record's PID is unset, `get_process_output` reports status
`completed` without issuing any liveness probe — its remote trace is exactly the
exit-spool read followed by the two bounded output reads — and in particular it
never reports `running` or `failed`. -/
theorem get_process_output_no_pid (env : Remote) (p : BackgroundProcess) (m : Nat)
    (h : p.pid = none) :
    (get_process_output env p m).status = "completed" ∧
    (get_process_output env p m).trace =
      [RemoteCmd.catFile (p.output_file ++ ".exit"),
       RemoteCmd.headFile p.output_file m,
       RemoteCmd.headFile p.error_file (m / 2)] ∧
    (get_process_output env p m).status ≠ "running" ∧
    (get_process_output env p m).status ≠ "failed" := by
  have ht : pidTruthy p.pid = false := by rw [h]; rfl
  refine ⟨?_, ?_, ?_, ?_⟩ <;> simp [get_process_output, pollStatus, ht]

/-- C9 witness: the poll evaluated on `procChunk` (which has no PID). -/
theorem get_process_output_no_pid_witness :
    procChunk.pid = none ∧
    ((get_process_output remoteChunk procChunk 50).status = "completed" ∧
     (get_process_output remoteChunk procChunk 50).trace =
       [RemoteCmd.catFile (procChunk.output_file ++ ".exit"),
        RemoteCmd.headFile procChunk.output_file 50,
        RemoteCmd.headFile procChunk.error_file (50 / 2)] ∧
     (get_process_output remoteChunk procChunk 50).status ≠ "running" ∧
     (get_process_output remoteChunk procChunk 50).status ≠ "failed") :=
  ⟨rfl, get_process_output_no_pid remoteChunk procChunk 50 rfl⟩

/-- C10: `update_process` on an absent id is a no-op; on a present id it leaves
every other record unchanged and replaces the addressed record by the partial
merge `applyUpdate`, which keeps every field not passed (and every non-`None`
field argument only overwrites its own field). -/
theorem update_process_frame (r : Registry) (id : String) (pidA : Option Int)
    (stA : Option String) (ecA : Option Int) :
    (dictMem r id = false → update_process r id pidA stA ecA = r) ∧
    (∀ k, k ≠ id → dictGet (update_process r id pidA stA ecA) k = dictGet r k) ∧
    (∀ p, dictGet r id = some p →
      dictGet (update_process r id pidA stA ecA) id = some (applyUpdate p pidA stA ecA)) ∧
    (∀ p, (applyUpdate p pidA stA ecA).process_id = p.process_id ∧
      (applyUpdate p pidA stA ecA).host = p.host ∧
      (applyUpdate p pidA stA ecA).command = p.command ∧
      (applyUpdate p pidA stA ecA).start_time = p.start_time ∧
      (applyUpdate p pidA stA ecA).output_file = p.output_file ∧
      (applyUpdate p pidA stA ecA).error_file = p.error_file ∧
      (pidA = none → (applyUpdate p pidA stA ecA).pid = p.pid) ∧
      (stA = none → (applyUpdate p pidA stA ecA).status = p.status) ∧
      (ecA = none → (applyUpdate p pidA stA ecA).exit_code = p.exit_code)) := by
  refine ⟨update_process_absent r id pidA stA ecA,
    fun k hk => update_process_get_other r id k pidA stA ecA hk,
    fun p hp => update_process_get_self r id pidA stA ecA hp,
    fun p => ⟨rfl, rfl, rfl, rfl, rfl, rfl, ?_, ?_, ?_⟩⟩
  · intro hn
    simp [applyUpdate, hn]
  · intro hn
    simp [applyUpdate, hn]
  · intro hn
    simp [applyUpdate, hn]

/-- C10 witness: the no-op on an absent id, the frame on another key, the merge
on the present key, and the field preservation, on `regRunning`. -/
theorem update_process_frame_witness :
    (dictMem regRunning "zz" = false ∧
      update_process regRunning "zz" (some 9) (some "failed") (some 1) = regRunning) ∧
    ("zz" ≠ "abc12345" ∧
      dictGet (update_process regRunning "abc12345" (some 9) none none) "zz" =
        dictGet regRunning "zz") ∧
    (dictGet regRunning "abc12345" = some procRunning ∧
      dictGet (update_process regRunning "abc12345" (some 9) none none) "abc12345" =
        some (applyUpdate procRunning (some 9) none none)) ∧
    (applyUpdate procRunning none none none).pid = procRunning.pid :=
  ⟨⟨by decide,
    (update_process_frame regRunning "zz" (some 9) (some "failed") (some 1)).1 (by decide)⟩,
   ⟨by decide,
    (update_process_frame regRunning "abc12345" (some 9) none none).2.1 "zz" (by decide)⟩,
   ⟨by decide,
    (update_process_frame regRunning "abc12345" (some 9) none none).2.2.1 procRunning
      (by decide)⟩,
   ((update_process_frame regRunning "abc12345" none none none).2.2.2
      procRunning).2.2.2.2.2.2.1 rfl⟩

/-- C5 (code bug exhibit): the chunk read does return the bytes
`[offset, offset+size)` — but `has_more` probes the byte at `offset+size`
through `.strip()`, so a whitespace byte there reports `has_more=false` even
though the spool continues (`procChunk`'s spool is `"abcde\nZ"`, 7 bytes, and
the probed byte 5 is a newline); the 100-byte boundary case from the claim does
behave as stated. -/
theorem get_command_output_has_more_divergence :
    5 < (remoteChunk.fileBytes procChunk.output_file).length ∧
    (get_command_output envChunk regChunk "c5" 0 (some 5) 10000).1.stdout = "abcde" ∧
    (get_command_output envChunk regChunk "c5" 0 (some 5) 10000).1.has_more_output = false ∧
    (get_command_output envHundred regHundred "c5b" 100 (some 10) 10000).1.stdout = "" ∧
    (get_command_output envHundred regHundred "c5b" 100 (some 10) 10000).1.has_more_output
      = false ∧
    (get_command_output envHundred regHundred "c5b" 100 (some 10) 10000).1.status =
      "completed" := by
  decide

/-- C2 (code bug exhibit): a successful `kill_command` stores status `killed`,
but the next `get_command_status` recomputes the status from a liveness probe of
the dead PID and reports — and stores — `completed`, not `killed`. -/
theorem kill_then_status_reports_completed :
    (kill_command envKill regRunning "abc12345" true).1.success = true ∧
    dictGet (kill_command envKill regRunning "abc12345" true).2.1 "abc12345" =
      some { procRunning with status := "killed" } ∧
    (get_command_status envDead (kill_command envKill regRunning "abc12345" true).2.1
      "abc12345" 9).1.status = "completed" ∧
    (get_command_status envDead (kill_command envKill regRunning "abc12345" true).2.1
      "abc12345" 9).1.status ≠ "killed" ∧
    dictGet (get_command_status envDead
        (kill_command envKill regRunning "abc12345" true).2.1 "abc12345" 9).2
      "abc12345" = some { procRunning with status := "completed", exit_code := some 0 } := by
  decide

/-- C6 counterexample: a `kill_command` on a record whose status is not
`running` does not short-circuit before remote effects — it first issues a
liveness probe on the remote host (here `kill -0 7`), and only then returns the
not-running error. -/
theorem kill_command_non_running_probes_remote :
    (kill_command envDead regCompleted "c6" true).1.success = false ∧
    (kill_command envDead regCompleted "c6" true).1.error_message =
      "Process c6 is not running (status: completed)" ∧
    (kill_command envDead regCompleted "c6" true).2.2 = [RemoteCmd.probe 7] ∧
    (kill_command envDead regCompleted "c6" true).2.2 ≠ [] := by
  decide

/-- C6 (amended): a kill on a non-running record with a connection and a truthy
PID first issues one liveness probe; when the probe reports the process stopped,
the call returns the not-running error having issued only that probe (no kill
signal) and re-marks the record `completed` — the error message reports the
already-updated status `completed`, since the registry update mutates the very
record the message then reads. -/
theorem kill_command_non_running_short_circuit (env : CallEnv) (r : Registry)
    (rid : String) (cleanup : Bool) (p : BackgroundProcess) (pid : Int)
    (hget : dictGet r rid = some p) (hst : p.status ≠ "running")
    (hconn : env.conn = true) (hpid : p.pid = some pid) (hpid0 : pid ≠ 0)
    (halive : env.remote.aliveBefore pid = false) :
    kill_command env r rid cleanup =
      ({ success := false, process_id := rid,
         error_message := "Process " ++ rid ++ " is not running (status: completed)" },
       update_process r rid none (some "completed") none,
       [RemoteCmd.probe pid]) := by
  have ht : pidTruthy p.pid = true := by
    rw [hpid]
    simpa [pidTruthy] using hpid0
  have hgd : p.pid.getD 0 = pid := by rw [hpid]; rfl
  simp [kill_command, hget, hst, hconn, ht, hgd, halive]

/-- C6 witness: the amended short-circuit evaluated on `regCompleted` with the
dead remote host. -/
theorem kill_command_non_running_short_circuit_witness :
    dictGet regCompleted "c6" = some procCompleted ∧
    procCompleted.status ≠ "running" ∧
    envDead.conn = true ∧
    procCompleted.pid = some 7 ∧
    (7 : Int) ≠ 0 ∧
    envDead.remote.aliveBefore 7 = false ∧
    kill_command envDead regCompleted "c6" false =
      ({ success := false, process_id := "c6",
         error_message := "Process c6 is not running (status: completed)" },
       update_process regCompleted "c6" none (some "completed") none,
       [RemoteCmd.probe 7]) :=
  ⟨by decide, by decide, rfl, rfl, by decide, rfl,
   by
    have := kill_command_non_running_short_circuit envDead regCompleted "c6" false
      procCompleted 7 (by decide) (by decide) rfl rfl (by decide) rfl
    simpa using this⟩

/-- C1 counterexample: when the background launch fails after process tracking
has started, the failed `execute_command` leaves the freshly created record in
the registry and returns its process identifier — the registry is mutated and
the identifier is leaked by a failed call. -/
theorem execute_command_launch_failure_leaks :
    (execute_command envLaunchFail ([] : Registry) "h1" "ls").1.success = false ∧
    (execute_command envLaunchFail ([] : Registry) "h1" "ls").1.process_id = "deadbeef" ∧
    (execute_command envLaunchFail ([] : Registry) "h1" "ls").2 ≠ ([] : Registry) ∧
    dictGet (execute_command envLaunchFail ([] : Registry) "h1" "ls").2 "deadbeef" =
      some (newProcess "h1" "ls" "deadbeef" "20240101_000000" 3 "/tmp") := by
  decide

/-- C1 (amended): a policy rejection or a connection failure returns
`success=false` with an empty process id and leaves the registry exactly as it
was; but a launch failure (unparsable PID line) after tracking started returns
`success=false` with the new process identifier and retains the freshly
inserted record. -/
theorem execute_command_failure_registry (env : ExecEnv) (r : Registry)
    (host command : String) :
    ((validate_command env.validator command).1 = false →
      execute_command env r host command =
        ({ success := false, process_id := "", status := "failed",
           error_message := "Security policy violation: " ++
             (validate_command env.validator command).2 }, r)) ∧
    ((validate_command env.validator command).1 = true → env.conn = false →
      execute_command env r host command =
        ({ success := false, process_id := "", status := "failed",
           error_message := "Failed to establish SSH connection" }, r)) ∧
    ((validate_command env.validator command).1 = true → env.conn = true →
      pyParseInt env.pidOutput = none →
      execute_command env r host command =
        ({ success := false, process_id := env.freshId, status := "failed",
           error_message := "Failed to get PID: " ++ env.pidOutput,
           execution_time := env.elapsed },
         dictSet r env.freshId
           (newProcess host command env.freshId env.timestamp env.now env.tempDir))) := by
  refine ⟨?_, ?_, ?_⟩
  · intro hv
    simp [execute_command, hv]
  · intro hv hc
    simp [execute_command, hv, hc]
  · intro hv hc hp
    simp [execute_command, hv, hc, execute_command_background, hp, start_process]

/-- C1 witness: the three failure paths evaluated on the concrete environments
`envPolicyFail`, `envConnFail` and `envLaunchFail`, starting from the empty
registry. -/
theorem execute_command_failure_registry_witness :
    ((validate_command envPolicyFail.validator "ls").1 = false ∧
      execute_command envPolicyFail ([] : Registry) "h1" "ls" =
        ({ success := false, process_id := "", status := "failed",
           error_message := "Security policy violation: " ++
             (validate_command envPolicyFail.validator "ls").2 }, ([] : Registry))) ∧
    ((validate_command envConnFail.validator "ls").1 = true ∧ envConnFail.conn = false ∧
      execute_command envConnFail ([] : Registry) "h1" "ls" =
        ({ success := false, process_id := "", status := "failed",
           error_message := "Failed to establish SSH connection" }, ([] : Registry))) ∧
    ((validate_command envLaunchFail.validator "ls").1 = true ∧
      envLaunchFail.conn = true ∧ pyParseInt envLaunchFail.pidOutput = none ∧
      execute_command envLaunchFail ([] : Registry) "h1" "ls" =
        ({ success := false, process_id := envLaunchFail.freshId, status := "failed",
           error_message := "Failed to get PID: " ++ envLaunchFail.pidOutput,
           execution_time := envLaunchFail.elapsed },
         dictSet ([] : Registry) envLaunchFail.freshId
           (newProcess "h1" "ls" envLaunchFail.freshId envLaunchFail.timestamp
             envLaunchFail.now envLaunchFail.tempDir))) :=
  ⟨⟨by decide,
    (execute_command_failure_registry envPolicyFail ([] : Registry) "h1" "ls").1
      (by decide)⟩,
   ⟨by decide, rfl,
    (execute_command_failure_registry envConnFail ([] : Registry) "h1" "ls").2.1
      (by decide) rfl⟩,
   ⟨by decide, rfl, by decide,
    (execute_command_failure_registry envLaunchFail ([] : Registry) "h1" "ls").2.2
      (by decide) rfl (by decide)⟩⟩

end McpSsh
